import Mathlib

/-!
Verification of the chat-game repository (`service_world.py`, `service_ai.py`,
`service_character.py`, `service_game.py`) against its natural-language
specification.  Python dicts are embedded as ordered association lists
(`List (String × α)`), Python floats as exact rationals (`ℚ`), and fallible
stdlib operations (`float(...)`, the `in` membership test) as `Except` values
carrying the exception class they raise.
-/

namespace ChatGame

/-- A location of the world graph (`service_world.py`, class `Location`):
display name, descriptive text, direction-token → destination-id exit map,
and the ordered list of character ids present. -/
structure Location where
  name : String
  description : String
  exits : List (String × String)
  characters : List String
deriving Repr, DecidableEq

/-- The world state (`service_world.py`, class `WorldService`): the location
dictionary plus the current-location pointer. -/
structure WorldState where
  locations : List (String × Location)
  current_location : String
deriving Repr, DecidableEq

/-- The direction-synonym dictionary of `WorldService.move_to`
(service_world.py lines 139-143).  Its keys are exactly the twelve Chinese
variants; it has no entries for English letters. -/
def directionMap : List (String × String) :=
  [("北", "north"), ("南", "south"), ("东", "east"), ("西", "west"),
   ("上", "up"), ("下", "down"), ("北方", "north"), ("南方", "south"),
   ("东方", "east"), ("西方", "west"), ("上方", "up"), ("下方", "down")]

/-- `direction_map.get(direction, direction)` (service_world.py line 146). -/
def normalize (direction : String) : String :=
  (directionMap.lookup direction).getD direction

/-- `WorldService.move_to` (service_world.py lines 132-156).  Returns the
success flag, the user-visible message, and the updated world state. -/
def move_to (w : WorldState) (direction : String) : Bool × String × WorldState :=
  match w.locations.lookup w.current_location with
  | none => (false, "当前位置未知，无法移动。", w)
  | some current_loc =>
    match current_loc.exits.lookup (normalize direction) with
    | none => (false, "无法向" ++ direction ++ "移动，那里没有路。", w)
    | some target_location =>
      match w.locations.lookup target_location with
      | none => (false, "目标位置 " ++ target_location ++ " 不存在。", w)
      | some _ =>
        (true, "你向" ++ direction ++ "移动了。",
         { w with current_location := target_location })

/-- The six-location world built by `WorldService._initialize_world`
(service_world.py lines 54-112), with the initial pointer `village_center`. -/
def initialWorld : WorldState :=
  { locations :=
      [("village_center",
        { name := "村庄中心",
          description := "这里是一个宁静的小村庄的中心。古老的石井坐落在广场中央，周围是几座朴素的房屋。微风轻拂，带来远山的清香。",
          exits := [("north", "forest_entrance"), ("east", "village_shop"),
                    ("west", "village_house"), ("south", "river_bank")],
          characters := [] }),
       ("forest_entrance",
        { name := "森林入口",
          description := "茂密的森林在你面前展开，高大的树木遮天蔽日。阳光透过树叶洒下斑驳的光影，空气中弥漫着泥土和青草的香味。",
          exits := [("south", "village_center"), ("north", "deep_forest")],
          characters := [] }),
       ("deep_forest",
        { name := "深林",
          description := "你深入森林，周围变得更加幽暗神秘。古老的树木仿佛在窃窃私语，远处传来不明的声响。这里充满了未知的危险和机遇。",
          exits := [("south", "forest_entrance")],
          characters := [] }),
       ("village_shop",
        { name := "村庄商店",
          description := "这是一间温馨的小商店，货架上摆满了各种日用品和冒险用具。店主是一位和蔼的老人，总是乐于助人。",
          exits := [("west", "village_center")],
          characters := [] }),
       ("village_house",
        { name := "村民房屋",
          description := "这是一座典型的村庄房屋，木制的墙壁和茅草屋顶。房屋虽然简朴，但收拾得很整洁，透露出主人的勤劳。",
          exits := [("east", "village_center")],
          characters := [] }),
       ("river_bank",
        { name := "河岸",
          description := "清澈的小河缓缓流淌，河水倒映着天空的蓝色。河岸边长满了芦苇和野花，偶尔有小鱼跃出水面，激起阵阵涟漪。",
          exits := [("north", "village_center")],
          characters := [] })],
    current_location := "village_center" }

/-- A one-location world whose single exit dangles (its destination id is
absent from the location set); used to exercise the dangling-exit branch of
`move_to`. -/
def danglingWorld : WorldState :=
  { locations :=
      [("a", { name := "A", description := "d",
               exits := [("north", "nowhere")], characters := [] })],
    current_location := "a" }

/-- The values `json.loads` can produce, with numbers as exact rationals
(float rounding is abstracted away; every literal the theorems use is exact). -/
inductive Json where
  | null
  | bool (b : Bool)
  | num (q : ℚ)
  | str (s : String)
  | arr (elems : List Json)
  | obj (fields : List (String × Json))

/-- The Python exception classes the parsing stage can raise. -/
inductive PyErr where
  | valueError
  | typeError
  | attributeError
deriving Repr, DecidableEq

/-- The base-10 value of a digit list. -/
def digitsVal (cs : List Char) : ℕ :=
  cs.foldl (fun acc c => acc * 10 + (c.toNat - 48)) 0

/-- Models Python `float(s)` on plain decimal string literals: surrounding
whitespace stripped, optional sign, digits with an optional fraction part.
Returns `none` where Python raises ValueError.  Scientific notation, the
inf/nan spellings and underscore separators are outside the fragment
exercised here. -/
def parseDecimal (s : String) : Option ℚ :=
  let cs := ((s.data.dropWhile Char.isWhitespace).reverse.dropWhile Char.isWhitespace).reverse
  let sgn : ℚ := match cs with | '-' :: _ => -1 | _ => 1
  let body := match cs with
    | '-' :: rest => rest
    | '+' :: rest => rest
    | _ => cs
  if body.count '.' = 0 then
    if !body.isEmpty && body.all Char.isDigit then some (sgn * digitsVal body) else none
  else if body.count '.' = 1 then
    let ip := body.takeWhile (fun c => c ≠ '.')
    let fp := (body.dropWhile (fun c => c ≠ '.')).drop 1
    if ip.isEmpty && fp.isEmpty then none
    else if ip.all Char.isDigit && fp.all Char.isDigit then
      some (sgn * ((digitsVal ip : ℚ) + (digitsVal fp : ℚ) / (10 : ℚ) ^ fp.length))
    else none
  else none

/-- Whether `pat` occurs as a substring of `s`. -/
def strContains (s pat : String) : Bool :=
  (List.range (s.data.length + 1)).any (fun i => pat.data.isPrefixOf (s.data.drop i))

/-- Models the Python membership test `"msg" in ai_response` (service_ai.py
line 141): key lookup for dicts, element equality for lists, substring test
for strings, and a TypeError for non-container values. -/
def msgMember : Json → Except PyErr Bool
  | .obj fields => .ok (fields.any (fun kv => kv.1 == "msg"))
  | .arr elems =>
    .ok (elems.any (fun j => match j with | .str s => s == "msg" | _ => false))
  | .str s => .ok (strContains s "msg")
  | _ => .error .typeError

/-- Models Python `float(x)` on a `json.loads` value (service_ai.py line 145):
numbers pass through, numeric strings parse (ValueError otherwise), booleans
become 0/1, and None/lists/dicts raise TypeError. -/
def pyFloat : Json → Except PyErr ℚ
  | .num q => .ok q
  | .str s => match parseDecimal s with | some q => .ok q | none => .error .valueError
  | .bool b => .ok (if b then 1 else 0)
  | _ => .error .typeError

/-- `float(ai_response.get("mood", mood))` (service_ai.py line 145): dict
`.get` with the caller's prior mood as default; a non-dict receiver raises
AttributeError. -/
def moodGetFloat (j : Json) (mood : ℚ) : Except PyErr ℚ :=
  match j with
  | .obj fields => pyFloat ((fields.lookup "mood").getD (.num mood))
  | _ => .error .attributeError

/-- `ai_response["msg"]` (service_ai.py lines 149, 156); in the source this is
reached only when `ai_response` is a dict containing the key. -/
def jsonGetMsg : Json → Json
  | .obj fields => (fields.lookup "msg").getD .null
  | _ => .null

/-- A role-tagged session-history entry (the message dicts stored in
`session_histories`, service_ai.py).  An assistant turn's content is whatever
value `ai_response["msg"]` held, hence a `Json`. -/
structure Msg where
  role : String
  content : Json

/-- The number of entries of a given role in a history. -/
def countRole (r : String) (h : List Msg) : ℕ :=
  (h.filter (fun m => m.role == r)).length

/-- Lines 105-109 of service_ai.py: insert the system message at index 0 when
the history is empty or entry 0 is not a system entry, otherwise overwrite
entry 0's content in place. -/
def update_system (history : List Msg) (system_prompt : String) : List Msg :=
  match history with
  | [] => [⟨"system", .str system_prompt⟩]
  | m :: rest =>
    if m.role == "system" then ⟨"system", .str system_prompt⟩ :: rest
    else ⟨"system", .str system_prompt⟩ :: m :: rest

/-- Lines 133-136 of service_ai.py: strip a leading markdown fence marker and
a trailing fence from the reply text. -/
def stripFences (content : String) : String :=
  let cs := content.data
  let cs1 := if "```json".data.isPrefixOf cs then cs.drop 7 else cs
  let cs2 :=
    if "```".data.reverse.isPrefixOf cs1.reverse then cs1.take (cs1.length - 3) else cs1
  String.mk cs2

/-- The generic-exception fallback line (service_ai.py line 201). -/
def genericErrorMsg (character_name : String) : String :=
  character_name ++ " 看起来有些困惑，不如等 TA 消化一下你说了什么？"

/-- The dict returned by `get_character_response`: msg, mood, status. -/
structure AIResult where
  msg : Json
  mood : ℚ
  status : String

/-- The truncation expression of service_ai.py line 153,
`[history[0]] + history[-19:]`, guarded by `len(history) > 20` (line 152).
In the source this value is bound to the local name `history` only and is
never written back to `self.session_histories`, so the stored list stays
un-truncated (see `c1_session_history_unbounded`). -/
def truncate20 (history : List Msg) : List Msg :=
  if history.length > 20 then history.take 1 ++ history.drop (history.length - 19)
  else history

/-- The response-parsing stage of `get_character_response` (service_ai.py
lines 128-173 together with the surrounding handler at 196-205), applied to
the stripped reply `content` and the stored history as mutated so far (system
entry updated, user entry appended).  `parsed` models the outcome of
`json.loads` on the fence-stripped text (`none` = JSONDecodeError).
Exceptions flow as in the source: ValueError — raised at line 142 for a
missing msg field or by `float` on a non-numeric string — is caught at line
161 and yields the raw-text fallback; TypeError and AttributeError escape to
the generic handler at line 196, which returns an error dict and leaves the
stored history as already mutated.  Line 153's truncation rebinds a local
name only, so the stored history returned in the success branch is the
un-truncated list. -/
def respond_parse (content : String) (parsed : Option Json) (mood : ℚ)
    (character_name : String) (history : List Msg) : AIResult × List Msg :=
  let c := stripFences content
  match parsed with
  | none =>
    (⟨.str c, mood, "success_text"⟩, history ++ [⟨"assistant", .str c⟩])
  | some j =>
    match msgMember j with
    | .error _ =>
      (⟨.str (genericErrorMsg character_name), mood, "error"⟩, history)
    | .ok false =>
      (⟨.str c, mood, "success_text"⟩, history ++ [⟨"assistant", .str c⟩])
    | .ok true =>
      match moodGetFloat j mood with
      | .error .valueError =>
        (⟨.str c, mood, "success_text"⟩, history ++ [⟨"assistant", .str c⟩])
      | .error _ =>
        (⟨.str (genericErrorMsg character_name), mood, "error"⟩, history)
      | .ok m =>
        let new_mood := max 0 (min 1 m)
        let msg_val := jsonGetMsg j
        (⟨msg_val, new_mood, "success"⟩, history ++ [⟨"assistant", msg_val⟩])

/-- `AIService.get_character_response` (service_ai.py lines 84-205) in the
regime where the client is initialized and the completion call returned a
non-empty reply.  `system_prompt` is the string built at line 98 (its
construction formats a float into prose and is taken as an input here);
`content` is the reply text after `.strip()` (line 128); `parsed` models
`json.loads` of the fence-stripped text.  Returns the result dict together
with the list stored in `session_histories[session_id]` after the call. -/
def get_character_response (history : List Msg) (system_prompt player_message : String)
    (mood : ℚ) (character_name content : String) (parsed : Option Json) :
    AIResult × List Msg :=
  let h2 := update_system history system_prompt ++ [⟨"user", .str player_message⟩]
  respond_parse content parsed mood character_name h2

/-- The stored session history after `n` calls of `get_character_response` on
one session, starting from the empty history, when every completion reply is
the well-formed object with msg "ok" and mood 0.5. -/
def run_session : ℕ → List Msg
  | 0 => []
  | n + 1 =>
    (get_character_response (run_session n) "prompt" "hi" (1/2) "elder"
      "\x7b\"msg\": \"ok\", \"mood\": 0.5\x7d"
      (some (.obj [("msg", .str "ok"), ("mood", .num (1/2))]))).2

/-- A conversation turn stored by `Character.add_conversation`
(service_character.py lines 21-30); the ai side holds whatever value the
reply's msg field carried. -/
structure Turn where
  user : String
  ai : Json

/-- `Character.add_conversation` (service_character.py lines 21-30): append
the turn, then keep only the 10 most recent entries when the list exceeds
10. -/
def add_conversation (history : List Turn) (user_message : String) (ai_response : Json) :
    List Turn :=
  let h := history ++ [⟨user_message, ai_response⟩]
  if h.length > 10 then h.drop (h.length - 10) else h

/-- The conversation history of a freshly constructed character (empty
history) after the given sequence of `add_conversation` calls. -/
def run_conversations (ts : List Turn) : List Turn :=
  ts.foldl (fun h t => add_conversation h t.user t.ai) []

/-- The configured default mood: `default_mood` is 0.5 both in the fallback
configuration of service_config.py (line 33) and in config.py (line 18),
and `ConfigService.get_default_mood` returns it (lines 106-108). -/
def default_mood : ℚ := 1/2

/-- `Character` (service_character.py lines 9-19). -/
structure Character where
  character_id : String
  name : String
  personality : String
  location : String
  mood : ℚ
  conversation_history : List Turn

/-- `Character.__init__` (service_character.py lines 12-19).  The mood
argument models the Python signature `mood: float = None`, with `none` for
an omitted argument; `self.mood = mood or ConfigService().get_default_mood()`
takes the default whenever the argument is falsy, i.e. None or 0.0. -/
def Character.init (character_id name personality location : String)
    (mood : Option ℚ) : Character :=
  { character_id := character_id, name := name, personality := personality,
    location := location,
    mood := match mood with
            | none => default_mood
            | some m => if m = 0 then default_mood else m,
    conversation_history := [] }

/-- `Character.update_mood` (service_character.py lines 62-64). -/
def update_mood (ch : Character) (new_mood : ℚ) : Character :=
  { ch with mood := max 0 (min 1 new_mood) }

/-- The fixed roster seeded by `CharacterService._initialize_characters`
(service_character.py lines 74-119). -/
def initialCharacters : List (String × Character) :=
  [("elder", Character.init "elder" "村庄长老"
      "智慧而和蔼的老人，对村庄的历史了如指掌。他总是乐于为年轻的冒险者提供建议和指导。说话温和但富有哲理。"
      "village_center" (some (7/10))),
   ("shopkeeper", Character.init "shopkeeper" "商店老板"
      "精明但诚实的商人，对各种商品和价格了如指掌。他喜欢与顾客聊天，总是能提供有用的信息。说话直接但友善。"
      "village_shop" (some (3/5))),
   ("traveler", Character.init "traveler" "神秘旅者"
      "来自远方的神秘旅者，见多识广，知道许多外界的秘密。他的话语中总是带着一丝神秘感，让人捉摸不透。"
      "forest_entrance" (some (1/2))),
   ("villager", Character.init "villager" "村民"
      "朴实的村民，对村庄生活非常熟悉。他们勤劳善良，但对外来者有些谨慎。说话朴实无华。"
      "village_house" (some (1/2))),
   ("fisherman", Character.init "fisherman" "河边渔夫"
      "安静的渔夫，喜欢独自在河边钓鱼。他对河流和周围的自然环境非常了解，说话简洁但富有智慧。"
      "river_bank" (some (3/5)))]

/-- `CharacterService.reset_all_moods` (service_character.py lines 162-167):
every character's mood is set to the configured default and its conversation
history is emptied. -/
def reset_all_moods (chars : List (String × Character)) : List (String × Character) :=
  chars.map (fun kv => (kv.1, { kv.2 with mood := default_mood, conversation_history := [] }))

/-- `WorldService.reset_to_start` (service_world.py lines 188-190). -/
def reset_to_start (w : WorldState) : WorldState :=
  { w with current_location := "village_center" }

/-- `Location.add_character` (service_world.py lines 17-20): idempotent
append. -/
def Location.addChar (loc : Location) (character_id : String) : Location :=
  if loc.characters.contains character_id then loc
  else { loc with characters := loc.characters ++ [character_id] }

/-- `WorldService.add_character_to_location` (service_world.py lines 165-171)
with an explicit location id. -/
def add_character_to_location (w : WorldState) (character_id location_id : String) :
    WorldState :=
  if (w.locations.lookup location_id).isSome then
    { w with locations :=
        w.locations.map (fun kv =>
          if kv.1 == location_id then (kv.1, kv.2.addChar character_id) else kv) }
  else w

/-- `GameService._sync_character_locations` (service_game.py lines 25-28). -/
def sync_character_locations (w : WorldState) (chars : List (String × Character)) :
    WorldState :=
  chars.foldl (fun acc kv => add_character_to_location acc kv.1 kv.2.location) w

/-- `Location.get_exits_description` (service_world.py lines 27-43). -/
def get_exits_description (loc : Location) : String :=
  if loc.exits.isEmpty then "这里没有明显的出路。"
  else
    let direction_names : List (String × String) :=
      [("north", "北方"), ("south", "南方"), ("east", "东方"), ("west", "西方"),
       ("up", "上方"), ("down", "下方")]
    "可以前往: " ++ ", ".intercalate
      (loc.exits.map (fun kv => (direction_names.lookup kv.1).getD kv.1))

/-- `WorldService.get_location_description` (service_world.py lines 118-130). -/
def get_location_description (w : WorldState) : String :=
  match w.locations.lookup w.current_location with
  | none => "你似乎迷失在了未知的地方..."
  | some loc =>
    let base := "📍 " ++ loc.name ++ "\n\n" ++ loc.description ++ "\n\n"
      ++ get_exits_description loc
    if loc.characters.isEmpty then base
    else base ++ "\n\n👥 这里有: " ++ ", ".intercalate loc.characters

/-- `GameService._get_welcome_message` (service_game.py lines 60-70), with the
game title loaded from config.py line 7. -/
def welcome_message : String :=
  "Welcome to AI Chat Game - WebCLI!\n\nYou are a young adventurer who has just arrived in a mysterious realm.\nExplore this world and chat with AI-driven characters!\n\nTip: Type \x27help\x27 to see available commands\nTip: Type \x27clear\x27 to clear the screen\n\n---"

/-- The caller-owned game_state dict (service_game.py lines 37-42); history
entries are (type, content) pairs. -/
structure GameState where
  current_location : String
  player_name : String
  history : List (String × String)
  game_started : Bool

/-- The composite mutable state reachable from `GameService`: the world, the
character registry, the per-session AI histories, and the caller's
game_state dict. -/
structure GameAll where
  world : WorldState
  characters : List (String × Character)
  sessions : List (String × List Msg)
  game_state : GameState

/-- Ordered-dict assignment `d[k] = v`: overwrite in place when the key is
present, append otherwise. -/
def setAssoc {α : Type} (l : List (String × α)) (k : String) (v : α) :
    List (String × α) :=
  if l.any (fun kv => kv.1 == k) then
    l.map (fun kv => if kv.1 == k then (kv.1, v) else kv)
  else l ++ [(k, v)]

/-- Python `str()` as used when interpolating the reply value into the
transcript (service_game.py line 255).  Only the string case is reached in
any theorem; numeric and container rendering is abbreviated prose. -/
def Json.render : Json → String
  | .str s => s
  | .num q => toString q
  | .bool b => if b then "True" else "False"
  | .null => "None"
  | .arr _ => "[...]"
  | .obj _ => "\x7b...\x7d"

/-- `GameService._handle_talk_command` (service_game.py lines 210-264) in the
regime where the AI call itself does not raise (so the mock-reply fallback at
lines 257-264 is not taken) and debug mode is off (config.py line 19).
`system_prompt`, `content` and `parsed` feed the embedded
`get_character_response` as described there. -/
def handle_talk (st : GameAll) (args : List String)
    (system_prompt content : String) (parsed : Option Json) : String × GameAll :=
  match args with
  | [] =>
    ("和谁说话？使用: talk <角色ID> <消息>\n或者: 说 <角色ID> <消息>", st)
  | character_id :: rest =>
    let message := if rest.isEmpty then "你好" else " ".intercalate rest
    match st.characters.lookup character_id with
    | none =>
      ("没有找到角色 \x27" ++ character_id ++
       "\x27。\n输入 \x27characters\x27 查看当前位置的角色。", st)
    | some character =>
      if character.location != st.world.current_location then
        (character.name ++ " 不在这里。", st)
      else
        let session_id := "char_" ++ character_id
        let history := (st.sessions.lookup session_id).getD []
        let result := get_character_response history system_prompt message
          character.mood character.name content parsed
        let response_text := result.1.msg
        let ch1 := update_mood character result.1.mood
        let ch2 :=
          { ch1 with conversation_history :=
              add_conversation ch1.conversation_history message response_text }
        ("You said to " ++ character.name ++ ": \"" ++ message ++ "\"\n\n"
           ++ character.name ++ ": \"" ++ response_text.render ++ "\"",
         { st with
           characters := setAssoc st.characters character_id ch2,
           sessions := setAssoc st.sessions session_id result.2 })

/-- `GameService.create_new_game` (service_game.py lines 30-58): reset the
world pointer, reset all moods and conversation histories, re-sync character
presence, and build a fresh game_state dict seeded with the welcome banner
and the initial location description.  AI session histories are not touched
by this sequence. -/
def create_new_game (st : GameAll) : GameAll :=
  let w1 := reset_to_start st.world
  let chars := reset_all_moods st.characters
  let w2 := sync_character_locations w1 chars
  let gs : GameState :=
    { current_location := w2.current_location,
      player_name := "冒险者",
      history := [("system", welcome_message),
                  ("system", get_location_description w2)],
      game_started := true }
  { world := w2, characters := chars, sessions := st.sessions, game_state := gs }

/-- The composite state right after `GameService.__init__` (service_game.py
lines 16-28): fresh world and roster with presence synced, no AI sessions
yet, and a caller game_state dict. -/
def initialGame : GameAll :=
  { world := sync_character_locations initialWorld initialCharacters,
    characters := initialCharacters,
    sessions := [],
    game_state :=
      { current_location := "village_center", player_name := "冒险者",
        history := [], game_started := true } }

/-- A two-location test world with one valid exit and one dangling exit. -/
def testWorld : WorldState :=
  { locations :=
      [("a", { name := "A", description := "d",
               exits := [("north", "b"), ("east", "nowhere")], characters := [] }),
       ("b", { name := "B", description := "d", exits := [], characters := [] })],
    current_location := "a" }

/-- A one-character composite state with non-default mood, a non-empty
conversation history, and a displaced current location, for exercising the
new-game reset. -/
def miniGame : GameAll :=
  { world := initialWorld,
    characters :=
      [("bob", { character_id := "bob", name := "Bob", personality := "p",
                 location := "village_center", mood := 9/10,
                 conversation_history := [⟨"hi", .null⟩] })],
    sessions := [],
    game_state :=
      { current_location := "deep_forest", player_name := "x",
        history := [], game_started := true } }

/-! ## Helper lemmas -/

/-- Lookup success implies the key test of `List.any` succeeds. -/
theorem lookup_any_key {β : Type} :
    ∀ (l : List (String × β)) (k : String) (v : β),
      l.lookup k = some v → l.any (fun kv => kv.1 == k) = true := by
  intro l k v h
  induction l with
  | nil => simp [List.lookup] at h
  | cons p t ih =>
    obtain ⟨pk, pv⟩ := p
    by_cases hk : k = pk
    · subst hk
      simp
    · have hbeq : (k == pk) = false := beq_eq_false_iff_ne.mpr hk
      rw [List.lookup, hbeq] at h
      simp [List.any_cons, ih h]

/-- Lookup failure implies the key test of `List.any` fails everywhere. -/
theorem lookup_none_any_key {β : Type} :
    ∀ (l : List (String × β)) (k : String),
      l.lookup k = none → l.any (fun kv => kv.1 == k) = false := by
  intro l k h
  induction l with
  | nil => simp
  | cons p t ih =>
    obtain ⟨pk, pv⟩ := p
    by_cases hk : k = pk
    · subst hk
      simp [List.lookup] at h
    · have hbeq : (k == pk) = false := beq_eq_false_iff_ne.mpr hk
      rw [List.lookup, hbeq] at h
      have hbeq2 : (pk == k) = false := beq_eq_false_iff_ne.mpr (Ne.symm hk)
      simp [List.any_cons, hbeq2, ih h]

/-- Both moves behave alike (same success flag and same final state) once the
direction tokens normalize to the same canonical token. -/
theorem move_to_normalize_eq (w : WorldState) (d c : String)
    (h1 : normalize d = c) (h2 : normalize c = c) :
    (move_to w d).1 = (move_to w c).1 ∧ (move_to w d).2.2 = (move_to w c).2.2 := by
  unfold move_to
  rw [h1, h2]
  cases w.locations.lookup w.current_location with
  | none => exact ⟨rfl, rfl⟩
  | some loc =>
    dsimp only
    cases loc.exits.lookup c with
    | none => exact ⟨rfl, rfl⟩
    | some target =>
      dsimp only
      cases w.locations.lookup target with
      | none => exact ⟨rfl, rfl⟩
      | some _ => exact ⟨rfl, rfl⟩

/-! ## Claim theorems -/

/-- C3: for a canonical direction in the current location's exit map whose
destination exists, `move_to` succeeds and the pointer becomes the mapped
destination; for a direction whose normalization is not in the exit map, and
for an exit whose destination id is absent from the location set, `move_to`
fails and the state is unchanged. -/
theorem c3_move_to_correct (w : WorldState) (loc : Location) (d : String)
    (hcur : w.locations.lookup w.current_location = some loc)
    (hcanon : normalize d = d) :
    (∀ dest, loc.exits.lookup d = some dest → (w.locations.lookup dest).isSome →
      (move_to w d).1 = true ∧ (move_to w d).2.2.current_location = dest) ∧
    (loc.exits.lookup d = none →
      (move_to w d).1 = false ∧ (move_to w d).2.2 = w) ∧
    (∀ dest, loc.exits.lookup d = some dest → w.locations.lookup dest = none →
      (move_to w d).1 = false ∧ (move_to w d).2.2 = w) := by
  refine ⟨?_, ?_, ?_⟩
  · intro dest hdest hsome
    rcases Option.isSome_iff_exists.mp hsome with ⟨l, hl⟩
    simp [move_to, hcur, hcanon, hdest, hl]
  · intro hnone
    simp [move_to, hcur, hcanon, hnone]
  · intro dest hdest hnone
    simp [move_to, hcur, hcanon, hdest, hnone]

/-- Witness for C3 at the concrete test world: a canonical direction with an
existing destination succeeds, a missing direction fails in place, and a
dangling destination fails in place. -/
theorem c3_move_to_correct_witness :
    ((move_to testWorld "north").1 = true ∧
      (move_to testWorld "north").2.2.current_location = "b") ∧
    ((move_to testWorld "south").1 = false ∧ (move_to testWorld "south").2.2 = testWorld) ∧
    ((move_to testWorld "east").1 = false ∧ (move_to testWorld "east").2.2 = testWorld) := by
  have hA : testWorld.locations.lookup testWorld.current_location = some
      { name := "A", description := "d",
        exits := [("north", "b"), ("east", "nowhere")], characters := [] } := by rfl
  exact ⟨(c3_move_to_correct testWorld _ "north" hA rfl).1 "b" rfl (by rfl),
         (c3_move_to_correct testWorld _ "south" hA rfl).2.1 rfl,
         (c3_move_to_correct testWorld _ "east" hA rfl).2.2 "nowhere" rfl rfl⟩

/-- C2 counterexample: the English cardinal letter "n" is not normalized —
from the village center the canonical token "north" moves but "n" fails and
leaves the pointer unchanged, so letter variants do not succeed like the
canonical token. -/
theorem c2_letter_variant_not_normalized :
    (move_to initialWorld "north").1 = true ∧
    (move_to initialWorld "n").1 = false ∧
    (move_to initialWorld "n").2.2.current_location = "village_center" ∧
    normalize "n" = "n" :=
  ⟨rfl, rfl, rfl, rfl⟩

/-- C2 amended: `move_to` normalizes exactly the twelve Chinese variants of
`direction_map` — such a variant behaves exactly like its canonical token
(same success and same resulting state) — while any token outside the map,
including the English letters, is passed through unchanged. -/
theorem c2_chinese_variants_normalized (w : WorldState) :
    (∀ p ∈ directionMap,
      (move_to w p.1).1 = (move_to w p.2).1 ∧
      (move_to w p.1).2.2 = (move_to w p.2).2.2) ∧
    (∀ d, directionMap.lookup d = none → normalize d = d) := by
  constructor
  · intro p hp
    fin_cases hp <;> exact move_to_normalize_eq w _ _ rfl rfl
  · intro d hd
    simp [normalize, hd]

/-- Witness for C2 amended: the Chinese variant "北" moves exactly like
"north" from the initial world, and "n" is passed through unchanged. -/
theorem c2_chinese_variants_normalized_witness :
    (("北", "north") ∈ directionMap ∧
      (move_to initialWorld "北").1 = (move_to initialWorld "north").1 ∧
      (move_to initialWorld "北").2.2 = (move_to initialWorld "north").2.2) ∧
    (directionMap.lookup "n" = none ∧ normalize "n" = "n") :=
  ⟨⟨by decide, (c2_chinese_variants_normalized initialWorld).1 ("北", "north") (by decide)⟩,
   ⟨rfl, (c2_chinese_variants_normalized initialWorld).2 "n" rfl⟩⟩

/-- C10: constructing a `Character` with mood exactly 0.0 yields the
configured default mood 0.5 (the constructor treats a zero mood like an
omitted one), while any mood strictly between 0 and 1 is kept. -/
theorem c10_zero_mood_becomes_default (cid n p l : String) :
    (Character.init cid n p l (some 0)).mood = default_mood ∧
    default_mood = 1/2 ∧
    (Character.init cid n p l none).mood = default_mood ∧
    ∀ m : ℚ, 0 < m → m < 1 → (Character.init cid n p l (some m)).mood = m := by
  refine ⟨by simp [Character.init], rfl, rfl, ?_⟩
  intro m h0 _
  simp [Character.init, ne_of_gt h0]

/-- Witness for C10: a zero mood argument is replaced by 0.5 and the strictly
interior mood 0.3 is kept. -/
theorem c10_zero_mood_becomes_default_witness :
    (Character.init "a" "b" "c" "d" (some 0)).mood = default_mood ∧
    (0 : ℚ) < 3/10 ∧ (3/10 : ℚ) < 1 ∧
    (Character.init "a" "b" "c" "d" (some (3/10))).mood = 3/10 :=
  ⟨(c10_zero_mood_becomes_default "a" "b" "c" "d").1, by norm_num, by norm_num,
   (c10_zero_mood_becomes_default "a" "b" "c" "d").2.2.2 (3/10) (by norm_num) (by norm_num)⟩

/-- One `add_conversation` step maps the 10-suffix of a virtual full log to
the 10-suffix of the log extended by the new turn. -/
theorem add_conversation_suffix (l : List Turn) (t : Turn) :
    add_conversation (l.drop (l.length - 10)) t.user t.ai =
      (l ++ [t]).drop ((l ++ [t]).length - 10) := by
  have ht : (⟨t.user, t.ai⟩ : Turn) = t := rfl
  unfold add_conversation
  rw [ht]
  by_cases h : l.length ≤ 9
  · rw [Nat.sub_eq_zero_of_le (by omega), List.drop_zero]
    rw [if_neg (by simp; omega)]
    rw [Nat.sub_eq_zero_of_le (by simp; omega), List.drop_zero]
  · have h10 : 10 ≤ l.length := by omega
    have hs : (l.drop (l.length - 10)).length = 10 := by
      rw [List.length_drop]; omega
    rw [if_pos (by simp [hs])]
    rw [List.length_append, hs]
    have h1 : 10 + (List.length [t]) - 10 = 1 := by simp
    rw [h1]
    rw [List.drop_append_of_le_length (by omega)]
    rw [List.drop_drop]
    rw [List.drop_append_of_le_length (by simp)]
    have harith : l.length - 10 + 1 = (l ++ [t]).length - 10 := by
      simp
      omega
    rw [harith]

/-- Folding `add_conversation` over a turn list, starting from the 10-suffix
of a virtual full log, lands on the 10-suffix of the extended log. -/
theorem run_conversations_suffix :
    ∀ (ts l : List Turn),
      ts.foldl (fun h t => add_conversation h t.user t.ai) (l.drop (l.length - 10)) =
        (l ++ ts).drop ((l ++ ts).length - 10) := by
  intro ts
  induction ts with
  | nil =>
    intro l
    simp
  | cons t ts ih =>
    intro l
    rw [List.foldl_cons, add_conversation_suffix l t, ih (l ++ [t])]
    simp

/-- C6: after any sequence of `add_conversation` calls on a freshly
constructed character, the conversation history is exactly the most recent
(at most 10) turns in their original order; in particular its length never
exceeds 10. -/
theorem c6_conversation_bounded (ts : List Turn) :
    run_conversations ts = ts.drop (ts.length - 10) ∧
    (run_conversations ts).length ≤ 10 := by
  have h : run_conversations ts = ts.drop (ts.length - 10) := by
    have h0 := run_conversations_suffix ts []
    simpa [run_conversations] using h0
  refine ⟨h, ?_⟩
  rw [h, List.length_drop]
  omega

/-- C4 counterexample: a completion reply that parses as a JSON object with a
msg field but whose mood field is a non-numeric string does not return status
"success" with the prior mood — `float` raises ValueError, which is caught by
the raw-text fallback, so the status is "success_text". -/
theorem c4_unparseable_mood_not_success :
    (respond_parse "\x7b\"msg\": \"hi\", \"mood\": \"abc\"\x7d"
        (some (.obj [("msg", .str "hi"), ("mood", .str "abc")])) (1/2) "村庄长老" []).1.status
      = "success_text" ∧
    "success_text" ≠ "success" :=
  ⟨rfl, by decide⟩

/-- C4 amended: when the reply parses as a JSON object with a msg field, a
numeric mood yields status "success" with the mood clamped to [0,1] and the
msg value returned; an absent mood yields status "success" with the caller's
prior mood (itself clamped, hence unchanged for a prior mood in [0,1]); but a
mood present as a non-numeric string makes `float` raise ValueError and the
call takes the raw-text fallback, returning status "success_text" with the
prior mood. -/
theorem c4_mood_clamped_or_prior (fields : List (String × Json)) (v : Json)
    (mood : ℚ) (content character_name : String) (history : List Msg)
    (hmsg : fields.lookup "msg" = some v) :
    (∀ q, fields.lookup "mood" = some (.num q) →
      (respond_parse content (some (.obj fields)) mood character_name history).1.status
          = "success" ∧
      (respond_parse content (some (.obj fields)) mood character_name history).1.mood
          = max 0 (min 1 q) ∧
      (respond_parse content (some (.obj fields)) mood character_name history).1.msg = v) ∧
    (fields.lookup "mood" = none → 0 ≤ mood → mood ≤ 1 →
      (respond_parse content (some (.obj fields)) mood character_name history).1.status
          = "success" ∧
      (respond_parse content (some (.obj fields)) mood character_name history).1.mood
          = mood) ∧
    (∀ s, fields.lookup "mood" = some (.str s) → parseDecimal s = none →
      (respond_parse content (some (.obj fields)) mood character_name history).1.status
          = "success_text" ∧
      (respond_parse content (some (.obj fields)) mood character_name history).1.mood
          = mood) := by
  have hany := lookup_any_key fields "msg" v hmsg
  refine ⟨?_, ?_, ?_⟩
  · intro q hq
    simp [respond_parse, msgMember, hany, moodGetFloat, hq, pyFloat, jsonGetMsg, hmsg]
  · intro hq h0 h1
    simp [respond_parse, msgMember, hany, moodGetFloat, hq, pyFloat, jsonGetMsg, hmsg]
    rw [min_eq_right h1, max_eq_right h0]
  · intro s hq hparse
    simp [respond_parse, msgMember, hany, moodGetFloat, hq, pyFloat, hparse]

/-- Witness for C4 amended: the spec's example object with mood 1.7 clamps to
1.0 with status "success"; with the mood field absent, the prior mood 0.3 is
returned with status "success"; with mood "abc", status is "success_text". -/
theorem c4_mood_clamped_or_prior_witness :
    ((respond_parse "c" (some (.obj [("msg", .str "hi"), ("mood", .num (17/10))]))
        (1/2) "n" []).1.status = "success" ∧
     (respond_parse "c" (some (.obj [("msg", .str "hi"), ("mood", .num (17/10))]))
        (1/2) "n" []).1.mood = 1) ∧
    ((respond_parse "c" (some (.obj [("msg", .str "hi")])) (3/10) "n" []).1.status
        = "success" ∧
     (respond_parse "c" (some (.obj [("msg", .str "hi")])) (3/10) "n" []).1.mood = 3/10) ∧
    (respond_parse "c" (some (.obj [("msg", .str "hi"), ("mood", .str "abc")]))
        (1/2) "n" []).1.status = "success_text" := by
  have h1 := (c4_mood_clamped_or_prior [("msg", .str "hi"), ("mood", .num (17/10))]
      (.str "hi") (1/2) "c" "n" [] rfl).1 (17/10) rfl
  have h2 := (c4_mood_clamped_or_prior [("msg", .str "hi")]
      (.str "hi") (3/10) "c" "n" [] rfl).2.1 rfl (by norm_num) (by norm_num)
  have h3 := (c4_mood_clamped_or_prior [("msg", .str "hi"), ("mood", .str "abc")]
      (.str "hi") (1/2) "c" "n" [] rfl).2.2 "abc" rfl rfl
  refine ⟨⟨h1.1, ?_⟩, ⟨h2.1, h2.2⟩, h3.1⟩
  rw [h1.2.1]
  norm_num

/-- C5 counterexample: a completion reply that is valid JSON but a bare
number — hence lacking the required msg field — does not yield status
"success_text": the membership test `"msg" not in 5` raises TypeError, which
reaches the generic handler, so the status is "error". -/
theorem c5_scalar_json_gives_error :
    (respond_parse "5" (some (.num 5)) (1/2) "村庄长老" []).1.status = "error" ∧
    "error" ≠ "success_text" :=
  ⟨rfl, by decide⟩

/-- C5 amended: when the reply is not valid JSON, or parses to a JSON
container (object, array or string) whose msg membership test fails, the
fence-stripped reply text is returned verbatim as the message with the mood
unchanged, the text is appended to the session history as the assistant
turn, and the status is "success_text"; but a reply parsing to a bare JSON
number, boolean or null raises TypeError in the membership test and yields
status "error" with no history append. -/
theorem c5_fallback_success_text (content character_name : String) (mood : ℚ)
    (history : List Msg) :
    (respond_parse content none mood character_name history =
      (⟨.str (stripFences content), mood, "success_text"⟩,
       history ++ [⟨"assistant", .str (stripFences content)⟩])) ∧
    (∀ j, msgMember j = .ok false →
      respond_parse content (some j) mood character_name history =
        (⟨.str (stripFences content), mood, "success_text"⟩,
         history ++ [⟨"assistant", .str (stripFences content)⟩])) ∧
    (∀ j, msgMember j = .error .typeError →
      respond_parse content (some j) mood character_name history =
        (⟨.str (genericErrorMsg character_name), mood, "error"⟩, history)) := by
  refine ⟨rfl, ?_, ?_⟩
  · intro j hj
    simp [respond_parse, hj]
  · intro j hj
    simp [respond_parse, hj]

/-- Witness for C5 amended: an invalid-JSON reply and a JSON object lacking
the msg key both give the "success_text" fallback, while the JSON scalar 5
gives status "error" and appends nothing. -/
theorem c5_fallback_success_text_witness :
    (respond_parse "hello there" none (1/2) "n" [] =
      (⟨.str "hello there", 1/2, "success_text"⟩,
       [⟨"assistant", .str "hello there"⟩])) ∧
    (respond_parse "x" (some (.obj [("a", .null)])) (1/2) "n" [] =
      (⟨.str "x", 1/2, "success_text"⟩, [⟨"assistant", .str "x"⟩])) ∧
    (respond_parse "5" (some (.num 5)) (1/2) "n" [] =
      (⟨.str (genericErrorMsg "n"), 1/2, "error"⟩, [])) := by
  refine ⟨?_, ?_, ?_⟩
  · have h := (c5_fallback_success_text "hello there" "n" (1/2) []).1
    simpa using h
  · have h := (c5_fallback_success_text "x" "n" (1/2) []).2.1 (.obj [("a", .null)]) rfl
    simpa using h
  · exact (c5_fallback_success_text "5" "n" (1/2) []).2.2 (.num 5) rfl

/-- The parse stage only ever appends assistant-role entries to the stored
history it is given. -/
theorem respond_parse_appends_assistant (content : String) (parsed : Option Json)
    (mood : ℚ) (character_name : String) (h : List Msg) :
    ∃ t, (respond_parse content parsed mood character_name h).2 = h ++ t ∧
      ∀ m ∈ t, m.role = "assistant" := by
  unfold respond_parse
  cases parsed with
  | none =>
    exact ⟨[⟨"assistant", .str (stripFences content)⟩], rfl, by simp⟩
  | some j =>
    dsimp only
    cases hm : msgMember j with
    | error e =>
      exact ⟨[], by simp, by simp⟩
    | ok b =>
      cases b with
      | false =>
        exact ⟨[⟨"assistant", .str (stripFences content)⟩], rfl, by simp⟩
      | true =>
        dsimp only
        cases hg : moodGetFloat j mood with
        | error e =>
          cases e with
          | valueError =>
            exact ⟨[⟨"assistant", .str (stripFences content)⟩], rfl, by simp⟩
          | typeError => exact ⟨[], by simp, by simp⟩
          | attributeError => exact ⟨[], by simp, by simp⟩
        | ok m =>
          exact ⟨[⟨"assistant", jsonGetMsg j⟩], rfl, by simp⟩

/-- Role counts distribute over history concatenation. -/
theorem countRole_append (r : String) (a b : List Msg) :
    countRole r (a ++ b) = countRole r a + countRole r b := by
  simp [countRole, List.filter_append]

/-- The updated history always starts with the fresh system entry, and when
entry 0 was already a system entry the update keeps the tail and the number
of system entries. -/
theorem update_system_head (history : List Msg) (p : String) :
    ∃ rest, update_system history p = ⟨"system", .str p⟩ :: rest ∧
      (∀ m tl, history = m :: tl → m.role = "system" → rest = tl) := by
  cases history with
  | nil => exact ⟨[], rfl, by intro m tl hm; cases hm⟩
  | cons m tl =>
    by_cases hr : m.role = "system"
    · refine ⟨tl, ?_, ?_⟩
      · simp [update_system, hr]
      · intro m2 tl2 he _
        cases he
        rfl
    · refine ⟨m :: tl, ?_, ?_⟩
      · have : (m.role == "system") = false := beq_eq_false_iff_ne.mpr hr
        simp [update_system, this]
      · intro m2 tl2 he hrole
        cases he
        exact absurd hrole hr

/-- C7: after any call of `get_character_response`, entry 0 of the stored
session history is the system entry holding the prompt built for that call;
and when entry 0 was already a system entry, the call overwrites it in place
— the count of system entries is unchanged, so no duplicate system message
is ever appended. -/
theorem c7_system_entry_invariant (history : List Msg)
    (system_prompt player_message character_name content : String)
    (mood : ℚ) (parsed : Option Json) :
    ((get_character_response history system_prompt player_message mood
        character_name content parsed).2.head? = some ⟨"system", .str system_prompt⟩) ∧
    (∀ m tl, history = m :: tl → m.role = "system" →
      countRole "system" (get_character_response history system_prompt player_message
          mood character_name content parsed).2 = countRole "system" history) := by
  obtain ⟨rest, hu, hover⟩ := update_system_head history system_prompt
  obtain ⟨t, ht, hta⟩ := respond_parse_appends_assistant content parsed mood character_name
    (update_system history system_prompt ++ [⟨"user", .str player_message⟩])
  have hres : (get_character_response history system_prompt player_message mood
      character_name content parsed).2 =
      (⟨"system", .str system_prompt⟩ :: rest) ++ [⟨"user", .str player_message⟩] ++ t := by
    rw [get_character_response] at *
    rw [ht, hu]
  constructor
  · rw [hres]
    rfl
  · intro m tl he hrole
    have ht0 : countRole "system" t = 0 := by
      simp only [countRole, List.length_eq_zero, List.filter_eq_nil_iff]
      intro m2 hm2
      simp [hta m2 hm2]
    rw [hres, countRole_append, countRole_append, ht0]
    rw [hover m tl he hrole, he]
    have hu1 : countRole "system" [(⟨"user", .str player_message⟩ : Msg)] = 0 := by
      simp [countRole]
    rw [hu1]
    have hm1 : countRole "system" (⟨"system", .str system_prompt⟩ :: tl) =
        1 + countRole "system" tl := by
      simp [countRole, List.filter_cons, Nat.add_comm]
    have hm2 : countRole "system" (m :: tl) = 1 + countRole "system" tl := by
      simp [countRole, List.filter_cons, hrole, Nat.add_comm]
    rw [hm1, hm2]
    omega

/-- Witness for C7: a call on a history whose entry 0 holds an old system
prompt leaves exactly one system entry, now carrying the new prompt. -/
theorem c7_system_entry_invariant_witness :
    ((get_character_response [⟨"system", .str "old"⟩] "new" "hi" (1/2) "elder" "text"
        none).2.head? = some ⟨"system", .str "new"⟩) ∧
    countRole "system" (get_character_response [⟨"system", .str "old"⟩] "new" "hi" (1/2)
        "elder" "text" none).2 = countRole "system" [⟨"system", .str "old"⟩] :=
  ⟨(c7_system_entry_invariant [⟨"system", .str "old"⟩] "new" "hi" "elder" "text" (1/2) none).1,
   (c7_system_entry_invariant [⟨"system", .str "old"⟩] "new" "hi" "elder" "text" (1/2) none).2
     ⟨"system", .str "old"⟩ [] rfl rfl⟩

/-- C8: the talk command with an unknown character id returns the
"character not found" message and returns the composite state unchanged (no
character, world, session or game_state mutation); with a registered
character that is not at the current location it returns the "not here"
message, likewise without mutating state. -/
theorem c8_talk_no_mutation (st : GameAll) (args : List String)
    (system_prompt content : String) (parsed : Option Json) :
    (∀ cid rest, args = cid :: rest → st.characters.lookup cid = none →
      handle_talk st args system_prompt content parsed =
        ("没有找到角色 \x27" ++ cid ++ "\x27。\n输入 \x27characters\x27 查看当前位置的角色。",
         st)) ∧
    (∀ cid rest ch, args = cid :: rest → st.characters.lookup cid = some ch →
      ch.location ≠ st.world.current_location →
      handle_talk st args system_prompt content parsed =
        (ch.name ++ " 不在这里。", st)) := by
  constructor
  · intro cid rest h1 h2
    subst h1
    simp [handle_talk, h2]
  · intro cid rest ch h1 h2 h3
    subst h1
    simp [handle_talk, h2, bne_iff_ne, h3]

/-- Witness for C8: at the freshly initialized game, talking to the unknown
id "ghost" and to the shopkeeper (who is in the village shop, not the
village center) both return their error lines and leave the state intact. -/
theorem c8_talk_no_mutation_witness :
    handle_talk initialGame ["ghost"] "p" "c" none =
      ("没有找到角色 \x27ghost\x27。\n输入 \x27characters\x27 查看当前位置的角色。",
       initialGame) ∧
    handle_talk initialGame ["shopkeeper", "hi"] "p" "c" none =
      ("商店老板 不在这里。", initialGame) := by
  constructor
  · exact (c8_talk_no_mutation initialGame ["ghost"] "p" "c" none).1 "ghost" [] rfl rfl
  · exact (c8_talk_no_mutation initialGame ["shopkeeper", "hi"] "p" "c" none).2
      "shopkeeper" ["hi"] _ rfl rfl (by decide)

/-- Adding a character to a location's presence list never moves the
current-location pointer. -/
theorem add_character_to_location_current (w : WorldState) (cid lid : String) :
    (add_character_to_location w cid lid).current_location = w.current_location := by
  unfold add_character_to_location
  split <;> rfl

/-- Syncing character presence never moves the current-location pointer. -/
theorem sync_preserves_current (chars : List (String × Character)) :
    ∀ w, (sync_character_locations w chars).current_location = w.current_location := by
  induction chars with
  | nil =>
    intro w
    rfl
  | cons kv t ih =>
    intro w
    unfold sync_character_locations at ih ⊢
    rw [List.foldl_cons, ih, add_character_to_location_current]

/-- C9: the new-game sequence resets the current-location pointer (both the
world's and the fresh game_state's) to the fixed start identifier
"village_center", and for every character in the roster — whatever its prior
state — sets the mood to the configured default and empties the conversation
history. -/
theorem c9_new_game_resets (st : GameAll) :
    (create_new_game st).world.current_location = "village_center" ∧
    (create_new_game st).game_state.current_location = "village_center" ∧
    ∀ kv ∈ (create_new_game st).characters,
      kv.2.mood = default_mood ∧ kv.2.conversation_history = [] := by
  have hw : (create_new_game st).world.current_location = "village_center" := by
    show (sync_character_locations (reset_to_start st.world)
        (reset_all_moods st.characters)).current_location = "village_center"
    rw [sync_preserves_current]
    rfl
  refine ⟨hw, hw, ?_⟩
  intro kv hkv
  have hmem : kv ∈ reset_all_moods st.characters := hkv
  rw [reset_all_moods] at hmem
  obtain ⟨kv0, _, rfl⟩ := List.mem_map.mp hmem
  exact ⟨rfl, rfl⟩

/-- Witness for C9: the one-character state with mood 0.9, a non-empty
conversation history, and a displaced pointer is fully reset. -/
theorem c9_new_game_resets_witness :
    (create_new_game miniGame).world.current_location = "village_center" ∧
    (("bob", Character.mk "bob" "Bob" "p" "village_center" default_mood []) :
        String × Character) ∈ (create_new_game miniGame).characters ∧
    (Character.mk "bob" "Bob" "p" "village_center" default_mood []).mood = default_mood ∧
    (Character.mk "bob" "Bob" "p" "village_center" default_mood []).conversation_history
      = [] := by
  have hmem : (("bob", Character.mk "bob" "Bob" "p" "village_center" default_mood []) :
      String × Character) ∈ (create_new_game miniGame).characters := by
    show _ ∈ reset_all_moods miniGame.characters
    simp [reset_all_moods, miniGame]
  exact ⟨(c9_new_game_resets miniGame).1, hmem,
    ((c9_new_game_resets miniGame).2.2 _ hmem).1,
    ((c9_new_game_resets miniGame).2.2 _ hmem).2⟩

/-- Each successful call on the test session grows the stored history by two
entries and keeps the system entry in front. -/
theorem run_session_shape :
    ∀ n : ℕ, (run_session (n + 1)).length = 2 * n + 3 ∧
      ∃ rest, run_session (n + 1) = ⟨"system", .str "prompt"⟩ :: rest := by
  intro n
  induction n with
  | zero => exact ⟨rfl, [⟨"user", .str "hi"⟩, ⟨"assistant", .str "ok"⟩], rfl⟩
  | succ k ih =>
    obtain ⟨hlen, rest, hrest⟩ := ih
    have hrl : rest.length = 2 * k + 2 := by
      rw [hrest] at hlen
      simpa using hlen
    have hstep : run_session (k + 1 + 1) =
        ((⟨"system", .str "prompt"⟩ :: rest) ++ [⟨"user", .str "hi"⟩]) ++
          [⟨"assistant", .str "ok"⟩] := by
      rw [run_session, hrest]
      rfl
    refine ⟨?_, (rest ++ [⟨"user", .str "hi"⟩]) ++ [⟨"assistant", .str "ok"⟩],
      by rw [hstep]; rfl⟩
    rw [hstep]
    simp
    omega

/-- C1 (code bug): the truncation at service_ai.py line 153 rebinds a local
name and is never written back, so the stored session history is not bounded
by 20 — after ten successful exchanges it holds 21 entries (and grows by two
per call without bound), while the discarded truncation expression would
have given the 20 entries the spec describes. -/
theorem c1_session_history_unbounded :
    (run_session 10).length = 21 ∧
    (truncate20 (run_session 10)).length = 20 ∧
    ∀ n : ℕ, (run_session (n + 1)).length = 2 * n + 3 := by
  have h1 : (run_session 10).length = 21 := by
    have h := (run_session_shape 9).1
    norm_num at h
    exact h
  refine ⟨h1, ?_, fun n => (run_session_shape n).1⟩
  rfl

end ChatGame
